import Mathlib

/-!
# Formal model of the multimodal AI front-end (vision/speech panels)

A shallow embedding of the capture-and-continuous-analysis logic of
`src/components/VisionPanel.tsx`, the text-to-speech trigger of
`src/components/SpeechPanel.tsx`, and the inference-service wrappers of the
Gemini service module (`src/unnamed/part_001`), together with theorems about
the back-pressure loop, cancellation, resource release, error handling and
cadence of the continuous analysis loop.

Modelling conventions:
* React state variables become fields of an explicit state record; each event
  handler or effect body becomes a pure transition function, translated line
  by line from the source.
* The self-rescheduling `analyzeLoop` effect is modelled as a tick-driven
  state machine (one `tick` per timer firing), per the single-threaded
  cooperative timeline of the app.  The effect's dependency array is
  `[isAutoAnalyze, isStreaming, isLoading, mode]` (line 241): every change of
  one of these tears the current instance down (its closure's `mounted` flag
  becomes `false` - a generation bump of `gen` - and `clearTimeout` cancels
  the pending timer) and mounts a replacement instance, which immediately
  calls `analyzeLoop()` when `isAutoAnalyze` holds (lines 233-235).  In
  particular the `isLoading` flips performed by `processImage` tear down the
  issuing instance: while a request is in flight the replacement instance
  runs the 200 ms busy-retry chain, and when the response clears `isLoading`
  the next replacement captures immediately (modelled as a zero-delay timer),
  so the mode-cadence reschedule at lines 225-229 is only reachable in the
  no-frame path, where `isLoading` never changed.
* Ticks are atomic up to request issuance (single cooperative timeline).
* The outcome of the browser's `captureFrame` at a tick is an input of the
  tick event; `captureFrame` itself is modelled separately over a capture
  environment.
* JPEG quality `0.8` is recorded exactly as an integer percentage `80`.
-/

namespace MLProj

/-- The five application modes (`types.ts`, enum `AppMode`). -/
inductive AppMode
  | CLASSIFICATION
  | OBJECT_DETECTION
  | HAND_GESTURES
  | SPEECH_TO_TEXT
  | TEXT_TO_SPEECH
deriving DecidableEq, Repr

/-- The three modes rendered by `VisionPanel` (`App.tsx` render guard). -/
def isVisionMode : AppMode → Bool
  | AppMode.CLASSIFICATION => true
  | AppMode.OBJECT_DETECTION => true
  | AppMode.HAND_GESTURES => true
  | _ => false

/-- `ClassificationResult` (`types.ts`). -/
structure ClassificationResult where
  label : String
  confidence : String
  details : String
deriving DecidableEq, Repr

/-- `DetectedObject` (`types.ts`). -/
structure DetectedObject where
  name : String
  description : String
deriving DecidableEq, Repr

/-- `DetectionResult` (`types.ts`). -/
structure DetectionResult where
  objects : List DetectedObject
deriving DecidableEq, Repr

/-- `GestureResult` (`types.ts`). -/
structure GestureResult where
  gesture : String
  confidence : String
  meaning : String
deriving DecidableEq, Repr

/-- The tagged union held in `VisionPanel`'s `result` state variable. -/
inductive VisionResult
  | classification (r : ClassificationResult)
  | detection (r : DetectionResult)
  | gesture (r : GestureResult)
deriving DecidableEq, Repr

/-- The `source` state variable of `VisionPanel` (`upload` or `camera`). -/
inductive InputSource
  | upload
  | camera
deriving DecidableEq, Repr

/-- An encoded image blob as produced by `canvas.toBlob(cb, mime, quality)`;
the quality `0.8` is stored exactly as the percentage `80`. -/
structure EncodedBlob where
  mimeType : String
  qualityPct : Nat
deriving DecidableEq, Repr

/-- One track of an acquired `MediaStream`; `stopped` records whether
`track.stop()` has been called on it. -/
structure MediaTrack where
  stopped : Bool
deriving DecidableEq, Repr

/-- An outstanding analysis request.  `capturedAuto` and `mode` are the values
of `isAutoAnalyze` and `mode` captured by the `processImage` closure when the
request was issued; `fromLoop` records whether the request was awaited inside
`analyzeLoop`; `gen` is the loop effect generation at issue time.  Because
issuing the request flips `isLoading`, a dependency of the loop effect
(line 241), the issuing instance is torn down immediately afterwards: its
`mounted` flag is already `false` when the response arrives, so the
reschedule at lines 225-229 never runs at request completion. -/
structure PendingRequest where
  capturedAuto : Bool
  mode : AppMode
  fromLoop : Bool
  gen : Nat
deriving DecidableEq, Repr

/-- The state of one mounted `VisionPanel`, plus the loop bookkeeping and two
instrumentation fields (`captureCalls` counts `captureFrame()` invocations,
`releasedTracks` logs every track on which `track.stop()` was called). -/
structure VisionState where
  mode : AppMode
  source : InputSource
  selectedImage : Bool
  isStreaming : Bool
  isAutoAnalyze : Bool
  cameraError : Option String
  isLoading : Bool
  result : Option VisionResult
  error : Option String
  stream : Option (List MediaTrack)
  videoSrc : Bool
  timer : Option Nat
  gen : Nat
  inFlight : List PendingRequest
  captureCalls : Nat
  releasedTracks : List MediaTrack
deriving DecidableEq, Repr

/-- Back-pressure retry delay in ms (`VisionPanel.tsx` line 216:
`setTimeout(analyzeLoop, 200)`). -/
def retryDelay : Nat := 200

/-- Mode-dependent inter-capture delay in ms (`VisionPanel.tsx` line 228:
`mode === AppMode.HAND_GESTURES ? 500 : 2500`). -/
def loopDelay (m : AppMode) : Nat :=
  if m == AppMode.HAND_GESTURES then 500 else 2500

/-- Stop every track of a stream (`stream.getTracks().forEach(t => t.stop())`,
`VisionPanel.tsx` line 141). -/
def stopTracks (ts : List MediaTrack) : List MediaTrack :=
  ts.map (fun _ => { stopped := true })

/-- `stopCamera` (`VisionPanel.tsx` lines 139-149): stop all tracks, drop the
stream ref, detach the video element, clear the streaming and auto flags. -/
def stopCamera (s : VisionState) : VisionState :=
  { s with
    releasedTracks := s.releasedTracks ++ stopTracks (s.stream.getD []),
    stream := none,
    videoSrc := false,
    isStreaming := false,
    isAutoAnalyze := false }

/-- Teardown of the current `analyzeLoop` effect instance (the cleanup at
`VisionPanel.tsx` lines 237-240): `mounted = false` for the old closure
(generation bump) and `clearTimeout(timeoutId)`.  It runs whenever one of the
effect dependencies `isAutoAnalyze`, `isStreaming`, `isLoading`, `mode`
(line 241) changes; the `isLoading`-driven instances are folded into
`processImageStart` and `respond`. -/
def loopTeardown (s : VisionState) : VisionState :=
  { s with timer := none, gen := s.gen + 1 }

/-- Outcome of `startCamera` (`VisionPanel.tsx` lines 118-137): on success a
fresh stream of `n` live tracks is installed and streaming starts; on failure
the camera error message is set.  `setCameraError(null)` runs first. -/
def startCameraApply (s : VisionState) (ok : Bool) (n : Nat) : VisionState :=
  if ok then
    { s with
      cameraError := none,
      stream := some (List.replicate n { stopped := false }),
      videoSrc := true,
      isStreaming := true }
  else
    { s with cameraError := some "Unable to access camera. Please check permissions." }

/-- Entry of `processImage` (`VisionPanel.tsx` lines 177-195): set the loading
flag, clear the result unless auto-analyzing (anti-flicker), clear the error,
and issue the mode's service request.  For the three vision modes a request is
appended to `inFlight`, capturing the closure values; the `isLoading` flip
then re-instantiates the loop effect (dependency array, line 241): the
issuing instance is torn down (generation bump, pending timer cleared) and
the replacement instance calls `analyzeLoop()` when the loop is enabled,
whose busy branch schedules the 200 ms retry (lines 215-218).  For any other
mode no branch of the `if`-chain matches, no request is made, and the
`finally` block resets the loading flag immediately (no dependency change, no
effect churn). -/
def processImageStart (s : VisionState) (fromLoop : Bool) : VisionState :=
  let base : VisionState :=
    { s with
      result := if s.isAutoAnalyze then s.result else none,
      error := none }
  if isVisionMode s.mode then
    { base with
      isLoading := true,
      inFlight := base.inFlight ++
        [{ capturedAuto := s.isAutoAnalyze, mode := s.mode,
           fromLoop := fromLoop, gen := s.gen }],
      gen := s.gen + 1,
      timer := if s.isAutoAnalyze && s.isStreaming then some retryDelay
               else none }
  else
    { base with isLoading := false }

/-- Completion of `processImage` (`VisionPanel.tsx` lines 185-203) for the
request `p`: on success the result is replaced; on failure the error banner is
shown only when the captured `isAutoAnalyze` was `false`; the `finally` block
clears the loading flag. -/
def processImageFinish (s : VisionState) (p : PendingRequest)
    (k : Except Unit VisionResult) : VisionState :=
  match k with
  | Except.ok r => { s with result := some r, isLoading := false }
  | Except.error _ =>
      { s with
        error := if p.capturedAuto then s.error else some "Failed to process image.",
        isLoading := false }

/-- Lines 225-229 of `analyzeLoop`: `if (mounted && isAutoAnalyze)` schedule
the next capture at the mode's cadence.  Reachable only from tick paths in
which `isLoading` never changed (no frame captured, or the request-free
non-vision call), since any `isLoading` flip tears the running instance down
and sets its `mounted` flag to `false`. -/
def finishDelay (s : VisionState) : VisionState :=
  if s.isAutoAnalyze then { s with timer := some (loopDelay s.mode) } else s

/-- Arrival of the response of the oldest outstanding request: `processImage`
resumes (lines 185-203) and the `finally` clears `isLoading`.  The issuing
loop instance was already torn down when `isLoading` flipped true, so its
`mounted` flag is `false` and the reschedule at lines 225-229 never runs
here; instead, the `isLoading` change re-instantiates the effect (line 241):
teardown of the busy-retry instance (generation bump, retry timer cleared)
and, when the loop is enabled, an immediate `analyzeLoop()` call by the
replacement instance, modelled as a zero-delay timer. -/
def respond (s : VisionState) (k : Except Unit VisionResult) : VisionState :=
  match s.inFlight with
  | [] => s
  | p :: rest =>
      let s1 : VisionState := { processImageFinish s p k with inFlight := rest }
      { s1 with
        gen := s1.gen + 1,
        timer := if s1.isAutoAnalyze then some 0 else none }

/-- One firing of `analyzeLoop` (`VisionPanel.tsx` lines 211-231).  `blob` is
the outcome of `captureFrame()` at this tick.  The pending timer is consumed;
if the loop is disabled or the stream gone the body returns; if a request is
still outstanding (`isLoading`) the loop reschedules itself after the 200 ms
back-pressure delay without capturing; otherwise a frame is captured and, when
non-null, submitted via `processImage` (awaited, so the mode-cadence
reschedule of lines 225-229 happens at the response for vision modes, and
immediately for the request-free non-vision call). -/
def tick (s : VisionState) (blob : Option EncodedBlob) : VisionState :=
  let s0 : VisionState := { s with timer := none }
  if !(s0.isAutoAnalyze && s0.isStreaming) then s0
  else if s0.isLoading then { s0 with timer := some retryDelay }
  else
    let s1 : VisionState := { s0 with captureCalls := s0.captureCalls + 1 }
    match blob with
    | some _ =>
        let s2 := processImageStart s1 true
        if isVisionMode s1.mode then s2 else finishDelay s2
    | none => finishDelay s1

/-- `handleManualCapture` (`VisionPanel.tsx` lines 243-248): capture a frame
and, when non-null, submit it outside the loop. -/
def handleManualCapture (s : VisionState) (blob : Option EncodedBlob) : VisionState :=
  let s1 : VisionState := { s with captureCalls := s.captureCalls + 1 }
  match blob with
  | some _ => processImageStart s1 false
  | none => s1

/-- The `disabled` condition of the Capture and Analyze button
(`VisionPanel.tsx` line 542: `disabled={isLoading || isAutoAnalyze}`): a
disabled button never fires its click handler. -/
def captureButtonDisabled (s : VisionState) : Bool :=
  s.isLoading || s.isAutoAnalyze

/-- The mode-reset effect (`VisionPanel.tsx` lines 43-47): on a mode change,
clear the result, clear the error and stop auto-analyze. -/
def stateResetOnMode (s : VisionState) : VisionState :=
  { s with result := none, error := none, isAutoAnalyze := false }

/-- The discrete external events driving one mounted `VisionPanel`. -/
inductive Event
  | timerFire (blob : Option EncodedBlob)
  | response (k : Except Unit VisionResult)
  | toggleAuto (blob : Option EncodedBlob)
  | manualCapture (blob : Option EncodedBlob)
  | uploadAnalyze
  | selectFile
  | setSourceUpload
  | setSourceCamera (ok : Bool) (n : Nat)
  | activateCamera (ok : Bool) (n : Nat)
  | flipCamera (ok : Bool) (n : Nat)
  | stopCameraEv
  | switchMode (m : AppMode)
  | unmount
deriving Repr

/-- The transition function.  Guards mirror the conditions under which the
corresponding handler can run in the rendered UI: a disabled or unrendered
button leaves the state unchanged.

* `timerFire`: the scheduled `setTimeout` callback fires (only if one is
  pending).
* `response`: the in-flight service call settles.
* `toggleAuto`: the live-analyze toggle button (rendered while
  `source === camera && isStreaming`); turning the loop on re-creates the
  effect instance, which immediately calls `analyzeLoop()` (lines 233-235).
* `manualCapture`: the Capture and Analyze button, rendered in the streaming
  camera view and `disabled={isLoading || isAutoAnalyze}` (line 542).
* `uploadAnalyze`: the upload-view analyze button,
  `disabled={isLoading}`, rendered only with a selected image (lines 518-536).
* `selectFile`: `handleFileSelect` (lines 83-91).
* `setSourceUpload` and `setSourceCamera`: the source tabs (lines 377-397);
  the camera tab also calls `startCamera()`.
* `activateCamera`: the Activate Camera / Try Again buttons (lines 451-468).
* `flipCamera`: the facing-mode effect (lines 55-60), `stopCamera` then
  `startCamera` when streaming.
* `stopCameraEv`: a direct `stopCamera()` deactivation of the session.
* `switchMode`: the mode prop changes; for a different vision mode the
  mode-reset effect runs (lines 43-47) and the loop effect re-instantiates;
  for a speech mode `App.tsx` unmounts the panel, whose unmount cleanup
  (lines 50-52) calls `stopCamera`.
* `unmount`: component teardown (lines 50-52). -/
def step (s : VisionState) (e : Event) : VisionState :=
  match e with
  | Event.timerFire blob => if s.timer.isSome then tick s blob else s
  | Event.response k => respond s k
  | Event.toggleAuto blob =>
      if s.source == InputSource.camera && s.isStreaming then
        if s.isAutoAnalyze then loopTeardown { s with isAutoAnalyze := false }
        else tick (loopTeardown { s with isAutoAnalyze := true }) blob
      else s
  | Event.manualCapture blob =>
      if s.source == InputSource.camera && s.isStreaming &&
          !(captureButtonDisabled s) then
        handleManualCapture s blob
      else s
  | Event.uploadAnalyze =>
      if s.source == InputSource.upload && s.selectedImage && !s.isLoading then
        processImageStart s false
      else s
  | Event.selectFile =>
      if s.source == InputSource.upload then
        { s with selectedImage := true, result := none, error := none }
      else s
  | Event.setSourceUpload => { s with source := InputSource.upload }
  | Event.setSourceCamera ok n =>
      startCameraApply { s with source := InputSource.camera } ok n
  | Event.activateCamera ok n =>
      if s.source == InputSource.camera && !s.isStreaming then
        startCameraApply s ok n
      else s
  | Event.flipCamera ok n =>
      if s.isStreaming then startCameraApply (loopTeardown (stopCamera s)) ok n
      else s
  | Event.stopCameraEv => loopTeardown (stopCamera s)
  | Event.switchMode m =>
      if isVisionMode m then
        if m == s.mode then s
        else loopTeardown { stateResetOnMode s with mode := m }
      else loopTeardown (stopCamera s)
  | Event.unmount => loopTeardown (stopCamera s)

/-- Run a list of events from a state. -/
def runEvents (s : VisionState) (es : List Event) : VisionState :=
  es.foldl step s

/-- The initial state of a freshly mounted `VisionPanel` with mode prop `m`
(the `useState` initialisers, `VisionPanel.tsx` lines 20-40). -/
def initState (m : AppMode) : VisionState :=
  { mode := m
    source := InputSource.upload
    selectedImage := false
    isStreaming := false
    isAutoAnalyze := false
    cameraError := none
    isLoading := false
    result := none
    error := none
    stream := none
    videoSrc := false
    timer := none
    gen := 0
    inFlight := []
    captureCalls := 0
    releasedTracks := [] }

/-- Reachability of a panel state under the modelled events. -/
inductive Reach : VisionState → Prop
  | init (m : AppMode) : Reach (initState m)
  | next {s : VisionState} (e : Event) : Reach s → Reach (step s e)

/-! ## Frame sampling (`captureFrame`, `VisionPanel.tsx` lines 155-173) -/

/-- The DOM environment `captureFrame` runs against: whether the capture
session is streaming, whether the video and canvas elements are mounted,
whether `canvas.getContext` succeeds, and the intrinsic dimensions of the
stream currently playing. -/
structure CaptureEnv where
  streaming : Bool
  videoPresent : Bool
  canvasPresent : Bool
  ctxOk : Bool
  streamWidth : Nat
  streamHeight : Nat
deriving DecidableEq, Repr

/-- Modelled from the spec (browser media boundary, spec section 4.2): a video
element whose `srcObject` is not an active stream reports zero intrinsic
dimensions (`video.videoWidth`), so an inactive session yields a zero-area
surface. -/
def videoWidth (e : CaptureEnv) : Nat :=
  if e.streaming then e.streamWidth else 0

/-- Modelled from the spec (browser media boundary): see `videoWidth`. -/
def videoHeight (e : CaptureEnv) : Nat :=
  if e.streaming then e.streamHeight else 0

/-- Modelled from the spec (browser canvas boundary): `canvas.toBlob` invokes
its callback with `null` for a zero-area canvas, and otherwise with a blob in
the requested encoding and quality. -/
def canvasToBlob (w h : Nat) (mime : String) (qualityPct : Nat) : Option EncodedBlob :=
  if w = 0 || h = 0 then none else some { mimeType := mime, qualityPct := qualityPct }

/-- `captureFrame` (`VisionPanel.tsx` lines 155-173): null refs or a missing
2d context yield no frame; otherwise the canvas is sized to the video frame,
the frame is drawn, and `canvas.toBlob(cb, image/jpeg, 0.8)` encodes it
(quality 0.8 recorded as 80 percent). -/
def captureFrame (e : CaptureEnv) : Option EncodedBlob :=
  if !e.videoPresent || !e.canvasPresent then none
  else if !e.ctxOk then none
  else canvasToBlob (videoWidth e) (videoHeight e) "image/jpeg" 80

/-! ## Inference service wrappers (`src/unnamed/part_001`) -/

/-- The shape of a `generateContent` response consumed through its `.text`
accessor; `none` models a response carrying no text payload. -/
structure GenResponse where
  text : Option String
deriving DecidableEq, Repr

/-- JavaScript falsiness of `response.text` (`!text`): missing or empty. -/
def emptyText (r : GenResponse) : Bool :=
  match r.text with
  | none => true
  | some t => t == ""

/-- Whether an `Except` computation failed. -/
def isErr {α : Type} (x : Except String α) : Bool :=
  match x with
  | Except.error _ => true
  | Except.ok _ => false

/-- `classifyImage` (`part_001` lines 26-60) after the service call returned
`r`: throw `No response text` on an empty payload, otherwise `JSON.parse` the
text (the parser is a parameter; a parse failure is a thrown error). -/
def classifyImage (parse : String → Option ClassificationResult)
    (r : GenResponse) : Except String ClassificationResult :=
  match r.text with
  | none => Except.error "No response text"
  | some t =>
      if t == "" then Except.error "No response text"
      else
        match parse t with
        | some v => Except.ok v
        | none => Except.error "JSON parse error"

/-- `detectObjects` (`part_001` lines 62-102): same empty-payload check. -/
def detectObjects (parse : String → Option DetectionResult)
    (r : GenResponse) : Except String DetectionResult :=
  match r.text with
  | none => Except.error "No response text"
  | some t =>
      if t == "" then Except.error "No response text"
      else
        match parse t with
        | some v => Except.ok v
        | none => Except.error "JSON parse error"

/-- `detectHandGestures` (`part_001` lines 104-162): same empty-payload
check. -/
def detectHandGestures (parse : String → Option GestureResult)
    (r : GenResponse) : Except String GestureResult :=
  match r.text with
  | none => Except.error "No response text"
  | some t =>
      if t == "" then Except.error "No response text"
      else
        match parse t with
        | some v => Except.ok v
        | none => Except.error "JSON parse error"

/-- `transcribeAudio` (`part_001` lines 164-200): the promise resolves with
`response.text || "No transcription generated."`, so an empty payload is
replaced by a placeholder string instead of failing. -/
def transcribeAudio (r : GenResponse) : Except String String :=
  Except.ok
    (match r.text with
     | none => "No transcription generated."
     | some t => if t == "" then "No transcription generated." else t)

/-- `inlineData` of a response part (`part_001` line 224). -/
structure InlineData where
  data : String
deriving DecidableEq, Repr

/-- A content part of a TTS response candidate. -/
structure RespPart where
  inlineData : Option InlineData
deriving DecidableEq, Repr

/-- The content of a TTS response candidate. -/
structure Content where
  parts : List RespPart
deriving DecidableEq, Repr

/-- A TTS response candidate. -/
structure Candidate where
  content : Content
deriving DecidableEq, Repr

/-- A `generateContent` response for speech synthesis. -/
structure TTSResponse where
  candidates : List Candidate
deriving DecidableEq, Repr

/-- The audio-payload extraction chain of `synthesizeSpeech` (`part_001`
lines 219-228): first candidate, first part, its `inlineData.data`, each
guarded by presence (and JS truthiness of `data`). -/
def ttsAudioPayload (r : TTSResponse) : Option String :=
  match r.candidates with
  | [] => none
  | c :: _ =>
      match c.content.parts with
      | [] => none
      | p :: _ =>
          match p.inlineData with
          | none => none
          | some d => if d.data == "" then none else some d.data

/-- `synthesizeSpeech` (`part_001` lines 202-235): return the base64 audio
payload, or throw `No audio data returned` when the chain yields nothing. -/
def synthesizeSpeech (r : TTSResponse) : Except String String :=
  match ttsAudioPayload r with
  | some d => Except.ok d
  | none => Except.error "No audio data returned"

/-! ## Text-to-speech trigger (`SpeechPanel.tsx`) -/

/-- The synthesis request issued by `handleTTS` (text and selected voice). -/
structure TTSRequest where
  text : String
  voice : String
deriving DecidableEq, Repr

/-- The `SpeechPanel` state relevant to the TTS trigger. -/
structure SpeechState where
  textInput : String
  audioUrl : Option String
  isLoading : Bool
  error : Option String
  selectedVoice : String
deriving DecidableEq, Repr

/-- The characters stripped by JavaScript `String.prototype.trim`
(ECMAScript WhiteSpace and LineTerminator): TAB, LF, VT, FF, CR, SP, NBSP,
OGHAM SPACE MARK, the Unicode space separators U+2000..U+200A, LINE and
PARAGRAPH SEPARATOR, NARROW NO-BREAK SPACE, MEDIUM MATHEMATICAL SPACE,
IDEOGRAPHIC SPACE, and ZWNBSP. -/
def jsWhitespace (c : Char) : Bool :=
  c == ' ' || c == '\t' || c == '\n' || c == '\r' ||
  c.toNat == 0x0B || c.toNat == 0x0C || c.toNat == 0xA0 ||
  c.toNat == 0x1680 ||
  (0x2000 ≤ c.toNat && c.toNat ≤ 0x200A) ||
  c.toNat == 0x2028 || c.toNat == 0x2029 || c.toNat == 0x202F ||
  c.toNat == 0x205F || c.toNat == 0x3000 || c.toNat == 0xFEFF

/-- JavaScript `String.prototype.trim`, modelled directly as dropping the
ECMAScript whitespace characters from both ends of the string (used by
`handleTTS` only through its emptiness test). -/
def jsTrim (t : String) : String :=
  String.mk
    (((t.toList.dropWhile jsWhitespace).reverse.dropWhile
        jsWhitespace).reverse)

/-- The synchronous prefix of `handleTTS` (`SpeechPanel.tsx` lines 113-121):
`if (!textInput.trim()) return;` then set the loading flag, clear the error,
clear the previous audio URL, and issue `synthesizeSpeech(textInput,
selectedVoice)`.  Returns the updated state and the request, if any. -/
def handleTTS (s : SpeechState) : SpeechState × Option TTSRequest :=
  if jsTrim s.textInput == "" then (s, none)
  else
    ({ s with isLoading := true, error := none, audioUrl := none },
     some { text := s.textInput, voice := s.selectedVoice })

/-! ## Concrete states used by witnesses and counterexamples -/

/-- A concrete captured frame. -/
def blob0 : EncodedBlob := { mimeType := "image/jpeg", qualityPct := 80 }

/-- A concrete classification result. -/
def res0 : VisionResult :=
  VisionResult.classification
    { label := "Persian Cat", confidence := "98%", details := "A cat." }

/-- Loop enabled and a request issued, then the loop toggled off while the
request is still outstanding. -/
def c2State : VisionState :=
  runEvents (initState AppMode.CLASSIFICATION)
    [Event.setSourceCamera true 1, Event.toggleAuto (some blob0),
     Event.toggleAuto none]

/-- Camera streaming in classification mode, then the mode switched to object
detection. -/
def c3State : VisionState :=
  runEvents (initState AppMode.CLASSIFICATION)
    [Event.setSourceCamera true 2, Event.switchMode AppMode.OBJECT_DETECTION]

/-- A manual capture outstanding, then the loop toggled on: the immediate
`analyzeLoop()` call hits the busy branch and schedules the 200 ms retry. -/
def c1State : VisionState :=
  runEvents (initState AppMode.CLASSIFICATION)
    [Event.setSourceCamera true 1, Event.manualCapture (some blob0),
     Event.toggleAuto none]

/-- Camera streaming in gesture mode with the loop just enabled (the enabling
tick found no frame yet, so the mode-cadence timer is pending). -/
def liveGesture : VisionState :=
  runEvents (initState AppMode.HAND_GESTURES)
    [Event.setSourceCamera true 1, Event.toggleAuto none]

/-- Camera streaming in gesture mode with a loop-issued request in flight. -/
def c6RespState : VisionState :=
  runEvents (initState AppMode.HAND_GESTURES)
    [Event.setSourceCamera true 1, Event.toggleAuto (some blob0)]

/-- Camera streaming in classification mode, loop off, nothing in flight. -/
def camState : VisionState :=
  runEvents (initState AppMode.CLASSIFICATION) [Event.setSourceCamera true 1]

/-- An active capture environment with a ready 1280x720 stream. -/
def envActive : CaptureEnv :=
  { streaming := true, videoPresent := true, canvasPresent := true,
    ctxOk := true, streamWidth := 1280, streamHeight := 720 }

/-- An inactive capture environment (session stopped). -/
def envInactive : CaptureEnv :=
  { streaming := false, videoPresent := true, canvasPresent := true,
    ctxOk := true, streamWidth := 1280, streamHeight := 720 }

/-- A speech panel state whose text input is whitespace only. -/
def sWs : SpeechState :=
  { textInput := "   ", audioUrl := some "blob-url", isLoading := false,
    error := some "old", selectedVoice := "Puck" }

/-- A speech panel state whose text input is non-ASCII whitespace only
(a no-break space followed by a form feed). -/
def sNbsp : SpeechState :=
  { textInput := "\u00A0\x0C", audioUrl := some "blob-url",
    isLoading := false, error := some "old", selectedVoice := "Puck" }

/-- A speech panel state with real text input. -/
def sTxt : SpeechState :=
  { textInput := "Hello there", audioUrl := some "blob-url", isLoading := false,
    error := some "old", selectedVoice := "Kore" }

/-! ## Invariants of the vision panel state machine -/

/-- Requests are issued only under the busy flag: the number of outstanding
requests is 1 while `isLoading` and 0 otherwise. -/
def InvFlight (s : VisionState) : Prop :=
  s.inFlight.length = if s.isLoading then 1 else 0

/-- The loop can only be enabled while the capture session is active. -/
def InvAuto (s : VisionState) : Prop :=
  s.isAutoAnalyze = true → s.isStreaming = true

/-- A pending loop timer implies the loop is enabled and the session active. -/
def InvTimer (s : VisionState) : Prop :=
  s.timer.isSome = true → s.isAutoAnalyze = true ∧ s.isStreaming = true

/-- Every track ever passed to `track.stop()` is stopped. -/
def InvTracks (s : VisionState) : Prop :=
  ∀ t ∈ s.releasedTracks, t.stopped = true

/-- The conjunction of the four invariants. -/
def Inv (s : VisionState) : Prop :=
  InvFlight s ∧ InvAuto s ∧ InvTimer s ∧ InvTracks s

theorem stopTracks_stopped (ts : List MediaTrack) :
    ∀ t ∈ stopTracks ts, t.stopped = true := by
  intro t ht
  simp only [stopTracks, List.mem_map] at ht
  obtain ⟨a, _, rfl⟩ := ht
  rfl

theorem inv_processImageStart (s : VisionState) (fromLoop : Bool)
    (h : Inv s) (hl : s.isLoading = false) : Inv (processImageStart s fromLoop) := by
  obtain ⟨h1, h2, h3, h4⟩ := h
  unfold Inv InvFlight InvAuto InvTimer InvTracks at *
  unfold processImageStart
  by_cases hv : isVisionMode s.mode = true <;>
    by_cases ha : s.isAutoAnalyze = true <;>
    refine ⟨?_, ?_, ?_, ?_⟩ <;> simp_all

theorem inv_tick (s : VisionState) (blob : Option EncodedBlob)
    (h : Inv s) : Inv (tick s blob) := by
  obtain ⟨h1, h2, h3, h4⟩ := h
  unfold tick
  by_cases hg : (s.isAutoAnalyze && s.isStreaming) = true
  · have ha : s.isAutoAnalyze = true := by
      cases hb : s.isAutoAnalyze <;> simp_all
    have hs : s.isStreaming = true := by
      cases hb : s.isStreaming <;> simp_all
    simp only [hg, Bool.not_true, Bool.false_eq_true, if_false]
    by_cases hl : s.isLoading = true
    · simp only [hl, if_true]
      unfold Inv InvFlight InvAuto InvTimer InvTracks at *
      refine ⟨?_, ?_, ?_, ?_⟩ <;> simp_all
    · have hl' : s.isLoading = false := eq_false_of_ne_true hl
      simp only [hl', Bool.false_eq_true, if_false]
      cases blob with
      | some b =>
          have hstart := inv_processImageStart
            { s with timer := none, captureCalls := s.captureCalls + 1 } true
            (by unfold Inv InvFlight InvAuto InvTimer InvTracks at *
                refine ⟨?_, ?_, ?_, ?_⟩ <;> simp_all) hl'
          by_cases hv : isVisionMode s.mode = true
          · simpa [hv] using hstart
          · obtain ⟨g1, g2, g3, g4⟩ := hstart
            unfold Inv InvFlight InvAuto InvTimer InvTracks at *
            refine ⟨?_, ?_, ?_, ?_⟩ <;>
              simp_all [finishDelay, processImageStart]
      | none =>
          unfold finishDelay
          unfold Inv InvFlight InvAuto InvTimer InvTracks at *
          refine ⟨?_, ?_, ?_, ?_⟩ <;> simp_all
  · simp only [hg]
    have hg' : (s.isAutoAnalyze && s.isStreaming) = false := eq_false_of_ne_true hg
    simp only [hg', Bool.not_false, if_true]
    unfold Inv InvFlight InvAuto InvTimer InvTracks at *
    refine ⟨?_, ?_, ?_, ?_⟩ <;> simp_all

theorem inv_respond (s : VisionState) (k : Except Unit VisionResult)
    (h : Inv s) : Inv (respond s k) := by
  obtain ⟨h1, h2, h3, h4⟩ := h
  unfold respond
  cases hf : s.inFlight with
  | nil => exact ⟨h1, h2, h3, h4⟩
  | cons p rest =>
      have hl : s.isLoading = true := by
        by_contra hc
        rw [InvFlight, hf, eq_false_of_ne_true hc] at h1
        simp at h1
      have hrest : rest = [] := by
        rw [InvFlight, hf, hl] at h1
        simpa using h1
      subst hrest
      unfold Inv InvFlight InvAuto InvTimer InvTracks at *
      cases k <;>
        simp only [processImageFinish] <;>
        by_cases ha : s.isAutoAnalyze = true <;>
        refine ⟨?_, ?_, ?_, ?_⟩ <;> simp_all

theorem inv_stopTrackAppend (s : VisionState)
    (h4 : InvTracks s) :
    ∀ t ∈ s.releasedTracks ++ stopTracks (s.stream.getD []), t.stopped = true := by
  intro t ht
  rcases List.mem_append.mp ht with hm | hm
  · exact h4 t hm
  · exact stopTracks_stopped _ t hm

theorem inv_startCameraApply (s : VisionState) (ok : Bool) (n : Nat)
    (h : Inv s) : Inv (startCameraApply s ok n) := by
  obtain ⟨h1, h2, h3, h4⟩ := h
  unfold Inv InvFlight InvAuto InvTimer InvTracks startCameraApply at *
  by_cases hok : ok = true <;> refine ⟨?_, ?_, ?_, ?_⟩ <;> simp_all

theorem inv_stopTeardown (s : VisionState) (h : Inv s) :
    Inv (loopTeardown (stopCamera s)) := by
  obtain ⟨h1, h2, h3, h4⟩ := h
  refine ⟨?_, ?_, ?_, ?_⟩
  · unfold InvFlight loopTeardown stopCamera at *
    simp_all
  · unfold InvAuto loopTeardown stopCamera
    simp
  · unfold InvTimer loopTeardown stopCamera
    simp
  · unfold InvTracks loopTeardown stopCamera
    exact inv_stopTrackAppend s h4

theorem inv_step (s : VisionState) (e : Event) (h : Inv s) : Inv (step s e) := by
  cases e with
  | timerFire blob =>
      simp only [step]
      split
      · exact inv_tick s blob h
      · exact h
  | response k =>
      simpa only [step] using inv_respond s k h
  | toggleAuto blob =>
      simp only [step]
      split
      · rename_i hg
        have hs2 : s.isStreaming = true := by
          cases hb : s.isStreaming
          · rw [hb] at hg; simp at hg
          · rfl
        split
        · obtain ⟨h1, h2, h3, h4⟩ := h
          unfold Inv InvFlight InvAuto InvTimer InvTracks loopTeardown at *
          refine ⟨?_, ?_, ?_, ?_⟩ <;> simp_all
        · refine inv_tick _ blob ?_
          obtain ⟨h1, h2, h3, h4⟩ := h
          unfold Inv InvFlight InvAuto InvTimer InvTracks loopTeardown at *
          refine ⟨?_, ?_, ?_, ?_⟩ <;> simp_all
      · exact h
  | manualCapture blob =>
      simp only [step]
      split
      · rename_i hg
        have hl : s.isLoading = false := by
          cases hb : s.isLoading
          · rfl
          · simp [captureButtonDisabled, hb] at hg
        unfold handleManualCapture
        cases blob with
        | some b =>
            refine inv_processImageStart _ false ?_ hl
            obtain ⟨h1, h2, h3, h4⟩ := h
            unfold Inv InvFlight InvAuto InvTimer InvTracks at *
            refine ⟨?_, ?_, ?_, ?_⟩ <;> simp_all
        | none =>
            obtain ⟨h1, h2, h3, h4⟩ := h
            unfold Inv InvFlight InvAuto InvTimer InvTracks at *
            refine ⟨?_, ?_, ?_, ?_⟩ <;> simp_all
      · exact h
  | uploadAnalyze =>
      simp only [step]
      split
      · rename_i hg
        have hl : s.isLoading = false := by
          cases hb : s.isLoading
          · rfl
          · rw [hb] at hg; simp at hg
        exact inv_processImageStart s false h hl
      · exact h
  | selectFile =>
      simp only [step]
      split
      · obtain ⟨h1, h2, h3, h4⟩ := h
        unfold Inv InvFlight InvAuto InvTimer InvTracks at *
        refine ⟨?_, ?_, ?_, ?_⟩ <;> simp_all
      · exact h
  | setSourceUpload =>
      obtain ⟨h1, h2, h3, h4⟩ := h
      unfold Inv InvFlight InvAuto InvTimer InvTracks at *
      simp only [step]
      refine ⟨?_, ?_, ?_, ?_⟩ <;> simp_all
  | setSourceCamera ok n =>
      simp only [step]
      refine inv_startCameraApply _ ok n ?_
      obtain ⟨h1, h2, h3, h4⟩ := h
      unfold Inv InvFlight InvAuto InvTimer InvTracks at *
      refine ⟨?_, ?_, ?_, ?_⟩ <;> simp_all
  | activateCamera ok n =>
      simp only [step]
      split
      · exact inv_startCameraApply s ok n h
      · exact h
  | flipCamera ok n =>
      simp only [step]
      split
      · exact inv_startCameraApply _ ok n (inv_stopTeardown s h)
      · exact h
  | stopCameraEv =>
      simpa only [step] using inv_stopTeardown s h
  | switchMode m =>
      simp only [step]
      split
      · split
        · exact h
        · obtain ⟨h1, h2, h3, h4⟩ := h
          unfold Inv InvFlight InvAuto InvTimer InvTracks loopTeardown
            stateResetOnMode at *
          refine ⟨?_, ?_, ?_, ?_⟩ <;> simp_all
      · exact inv_stopTeardown s h
  | unmount =>
      simpa only [step] using inv_stopTeardown s h

theorem inv_init (m : AppMode) : Inv (initState m) := by
  unfold Inv InvFlight InvAuto InvTimer InvTracks initState
  refine ⟨?_, ?_, ?_, ?_⟩ <;> simp

theorem reach_inv {s : VisionState} (h : Reach s) : Inv s := by
  induction h with
  | init m => exact inv_init m
  | next e _ ih => exact inv_step _ e ih

theorem respond_head (s : VisionState) (p : PendingRequest)
    (rest : List PendingRequest) (hf : s.inFlight = p :: rest)
    (k : Except Unit VisionResult) :
    respond s k =
      (let s1 : VisionState := { processImageFinish s p k with inFlight := rest }
       { s1 with
         gen := s1.gen + 1,
         timer := if s1.isAutoAnalyze then some 0 else none }) := by
  unfold respond
  rw [hf]

/-! ## Claim theorems -/

/-- Claim C1: in every execution of the continuous analysis loop, at most one
analysis request is outstanding at any time; and when the loop's tick fires
while a previous request is outstanding (the busy flag `isLoading` is set),
the loop reschedules itself after the fixed 200 ms back-pressure delay,
invoking no frame capture and issuing no new request. -/
theorem c1_at_most_one_in_flight (s : VisionState) (hr : Reach s) :
    s.inFlight.length ≤ 1 ∧
    (∀ blob : Option EncodedBlob, s.isLoading = true → s.timer.isSome = true →
      (step s (Event.timerFire blob)).timer = some retryDelay ∧
      (step s (Event.timerFire blob)).inFlight = s.inFlight ∧
      (step s (Event.timerFire blob)).captureCalls = s.captureCalls) := by
  obtain ⟨h1, h2, h3, h4⟩ := reach_inv hr
  constructor
  · unfold InvFlight at h1
    rw [h1]
    split <;> omega
  · intro blob hl ht
    obtain ⟨ha, hs⟩ := h3 ht
    refine ⟨?_, ?_, ?_⟩ <;> simp [step, tick, ht, ha, hs, hl]

/-- Claim C1 witness: a concrete reachable busy state in which the next tick
schedules the 200 ms retry and leaves the request list and capture count
unchanged. -/
theorem c1_witness :
    (step c1State (Event.timerFire (some blob0))).timer = some retryDelay ∧
    (step c1State (Event.timerFire (some blob0))).inFlight = c1State.inFlight ∧
    (step c1State (Event.timerFire (some blob0))).captureCalls
      = c1State.captureCalls := by
  have hr : Reach c1State :=
    Reach.next (Event.toggleAuto none)
      (Reach.next (Event.manualCapture (some blob0))
        (Reach.next (Event.setSourceCamera true 1)
          (Reach.init AppMode.CLASSIFICATION)))
  exact (c1_at_most_one_in_flight c1State hr).2 (some blob0) (by decide) (by decide)

/-- Claim C2 counterexample: stopping the loop while a request is outstanding
does not leave the displayed result unchanged when the response resolves:
in `c2State` the loop is off and a loop-issued request is still in flight with
no displayed result, yet the arriving success response replaces the result. -/
theorem c2_response_after_stop_changes_result :
    c2State.isAutoAnalyze = false ∧
    c2State.inFlight ≠ [] ∧
    c2State.result = none ∧
    (step c2State (Event.response (Except.ok res0))).result = some res0 := by
  refine ⟨by decide, by decide, by decide, by decide⟩

/-- Claim C2 (amended): if the loop is stopped while a request is outstanding,
the straggling response never reschedules the loop and a failure is absorbed
(no error surfaced when the request was loop-issued, result untouched), but
there is no liveness check before applying a successful response: a success
still replaces the displayed result (last write wins). -/
theorem c2_amended_straggler (s : VisionState) (p : PendingRequest)
    (rest : List PendingRequest) (hf : s.inFlight = p :: rest)
    (hauto : s.isAutoAnalyze = false) (ht : s.timer = none) :
    (∀ k, (step s (Event.response k)).timer = none) ∧
    (step s (Event.response (Except.error ()))).result = s.result ∧
    (p.capturedAuto = true →
      (step s (Event.response (Except.error ()))).error = s.error) ∧
    (∀ r, (step s (Event.response (Except.ok r))).result = some r) := by
  refine ⟨?_, ?_, ?_, ?_⟩
  · intro k
    have h0 := respond_head s p rest hf k
    simp only [step, h0]
    cases k <;> simp [processImageFinish, hauto]
  · have h0 := respond_head s p rest hf (Except.error ())
    simp only [step, h0]
    simp [processImageFinish, hauto]
  · intro hca
    have h0 := respond_head s p rest hf (Except.error ())
    simp only [step, h0]
    simp [processImageFinish, hca]
  · intro r
    have h0 := respond_head s p rest hf (Except.ok r)
    simp only [step, h0]
    simp [processImageFinish]

/-- Claim C2 witness for the amended statement, at the concrete stopped state
`c2State` with its in-flight loop-issued request. -/
theorem c2_amended_witness :
    (step c2State (Event.response (Except.ok res0))).result = some res0 ∧
    (step c2State (Event.response (Except.error ()))).error = c2State.error := by
  have h := c2_amended_straggler c2State
    { capturedAuto := true, mode := AppMode.CLASSIFICATION, fromLoop := true, gen := 1 }
    [] (by decide) (by decide) (by decide)
  exact ⟨h.2.2.2 res0, h.2.2.1 (by decide)⟩

/-- Claim C3 counterexample: a mode switch does not release the device
stream: after switching from classification to object detection while the
camera streams, the stream is still held and none of its tracks has been
stopped. -/
theorem c3_mode_switch_keeps_stream :
    c3State.mode = AppMode.OBJECT_DETECTION ∧
    c3State.stream = some [{ stopped := false }, { stopped := false }] ∧
    c3State.releasedTracks = [] := by
  refine ⟨by decide, by decide, by decide⟩

/-- Claim C3 (amended): the stream is released with all of its tracks stopped
on explicit stop and on component teardown, and a mode switch that leaves the
vision panel (to a speech mode) releases it through the unmount cleanup; but a
mode switch between vision modes keeps the acquired stream held (only the
transient session state is reset), and every track the code ever releases is
stopped. -/
theorem c3_amended_stream_release (s : VisionState) (m : AppMode) :
    (step s Event.stopCameraEv).stream = none ∧
    (step s Event.unmount).stream = none ∧
    (step s Event.stopCameraEv).releasedTracks
      = s.releasedTracks ++ stopTracks (s.stream.getD []) ∧
    (∀ t ∈ stopTracks (s.stream.getD []), t.stopped = true) ∧
    (isVisionMode m = true → (step s (Event.switchMode m)).stream = s.stream) ∧
    (isVisionMode m = false → (step s (Event.switchMode m)).stream = none) ∧
    (Reach s → ∀ t ∈ s.releasedTracks, t.stopped = true) := by
  refine ⟨?_, ?_, ?_, ?_, ?_, ?_, ?_⟩
  · simp [step, loopTeardown, stopCamera]
  · simp [step, loopTeardown, stopCamera]
  · simp [step, loopTeardown, stopCamera]
  · exact stopTracks_stopped _
  · intro hv
    simp only [step, hv]
    split
    · split <;> simp [loopTeardown, stateResetOnMode]
    · simp_all
  · intro hv
    simp [step, hv, loopTeardown, stopCamera]
  · intro hr
    exact (reach_inv hr).2.2.2

/-- Claim C3 witness for the amended statement, at the concrete reachable
state `c3State` in which the camera streams after a mode switch. -/
theorem c3_amended_witness :
    (step c3State Event.stopCameraEv).stream = none ∧
    (step c3State (Event.switchMode AppMode.HAND_GESTURES)).stream
      = c3State.stream ∧
    (∀ t ∈ c3State.releasedTracks, t.stopped = true) := by
  have h := c3_amended_stream_release c3State AppMode.HAND_GESTURES
  have hr : Reach c3State :=
    Reach.next (Event.switchMode AppMode.OBJECT_DETECTION)
      (Reach.next (Event.setSourceCamera true 2)
        (Reach.init AppMode.CLASSIFICATION))
  exact ⟨h.1, h.2.2.2.2.1 (by decide), h.2.2.2.2.2.2 hr⟩

/-- Claim C4 counterexample: `transcribeAudio` does not fail on an empty
service response: it resolves successfully with a placeholder transcription
string. -/
theorem c4_transcribe_empty_succeeds :
    transcribeAudio { text := none } = Except.ok "No transcription generated." ∧
    transcribeAudio { text := some "" }
      = Except.ok "No transcription generated." ∧
    isErr (transcribeAudio { text := none }) = false := by
  refine ⟨rfl, rfl, rfl⟩

/-- Claim C4 (amended): on an empty service response, `classifyImage`,
`detectObjects`, `detectHandGestures` and `synthesizeSpeech` fail with a
thrown error, but `transcribeAudio` succeeds with the placeholder text
`No transcription generated.` instead of failing. -/
theorem c4_amended_empty_response
    (pc : String → Option ClassificationResult)
    (pd : String → Option DetectionResult)
    (pg : String → Option GestureResult)
    (r : GenResponse) (tr : TTSResponse) :
    (emptyText r = true →
      isErr (classifyImage pc r) = true ∧
      isErr (detectObjects pd r) = true ∧
      isErr (detectHandGestures pg r) = true ∧
      transcribeAudio r = Except.ok "No transcription generated.") ∧
    (ttsAudioPayload tr = none → isErr (synthesizeSpeech tr) = true) := by
  constructor
  · intro he
    unfold emptyText at he
    cases hr2 : r.text with
    | none =>
        refine ⟨?_, ?_, ?_, ?_⟩ <;>
          simp [classifyImage, detectObjects, detectHandGestures,
            transcribeAudio, isErr, hr2]
    | some t =>
        rw [hr2] at he
        have ht : t = "" := by simpa using he
        subst ht
        refine ⟨?_, ?_, ?_, ?_⟩ <;>
          simp [classifyImage, detectObjects, detectHandGestures,
            transcribeAudio, isErr, hr2]
  · intro hp
    simp [synthesizeSpeech, hp, isErr]

/-- Claim C4 witness for the amended statement at an empty text response and
an empty candidate list. -/
theorem c4_amended_witness :
    isErr (classifyImage (fun _ => none) { text := none }) = true ∧
    isErr (synthesizeSpeech { candidates := [] }) = true ∧
    transcribeAudio { text := none }
      = Except.ok "No transcription generated." := by
  have h := c4_amended_empty_response (fun _ => none) (fun _ => none)
    (fun _ => none) { text := none } { candidates := [] }
  exact ⟨(h.1 (by decide)).1, h.2 (by decide), (h.1 (by decide)).2.2.2⟩

/-- Claim C5: a mode switch resets all transient session state: the displayed
result and the error become empty and the live-analyze flag becomes false;
and a panel freshly mounted after a switch away and back starts with the same
empty state. -/
theorem c5_mode_switch_resets (s : VisionState) (m : AppMode)
    (hv : isVisionMode m = true) (hne : (m == s.mode) = false) :
    (step s (Event.switchMode m)).result = none ∧
    (step s (Event.switchMode m)).error = none ∧
    (step s (Event.switchMode m)).isAutoAnalyze = false ∧
    (initState m).result = none ∧
    (initState m).error = none ∧
    (initState m).isAutoAnalyze = false := by
  refine ⟨?_, ?_, ?_, rfl, rfl, rfl⟩ <;>
    simp [step, hv, hne, loopTeardown, stateResetOnMode]

/-- Claim C5 witness at a concrete state with a result, an error and the loop
enabled. -/
theorem c5_witness :
    (step c2State (Event.switchMode AppMode.HAND_GESTURES)).result = none ∧
    (step c2State (Event.switchMode AppMode.HAND_GESTURES)).error = none ∧
    (step c2State (Event.switchMode AppMode.HAND_GESTURES)).isAutoAnalyze
      = false := by
  have h := c5_mode_switch_resets c2State AppMode.HAND_GESTURES
    (by decide) (by decide)
  exact ⟨h.1, h.2.1, h.2.2.1⟩

/-- Claim C6 (code-bug evidence): the mode-dependent delays exist exactly as
the claim states (500 ms for gestures, 2500 ms for classification and
detection, 200 ms back-pressure retry) and govern the no-frame reschedule and
the busy retry; but after a successful capture the program never schedules
the mode-cadence delay: the issuing loop instance was torn down when
`isLoading` flipped (dependency array, line 241), so the reschedule at lines
225-229 is dead at response time and the replacement effect instance
recaptures immediately (zero-delay) instead.  Evaluated at concrete
reachable states in gesture mode. -/
theorem c6_cadence_divergence :
    (loopDelay AppMode.HAND_GESTURES = 500 ∧
     loopDelay AppMode.CLASSIFICATION = 2500 ∧
     loopDelay AppMode.OBJECT_DETECTION = 2500 ∧
     retryDelay = 200) ∧
    (tick liveGesture none).timer = some (loopDelay AppMode.HAND_GESTURES) ∧
    (tick c1State (some blob0)).timer = some retryDelay ∧
    (respond c6RespState (Except.ok res0)).result = some res0 ∧
    (respond c6RespState (Except.ok res0)).timer = some 0 ∧
    ¬ (respond c6RespState (Except.ok res0)).timer
        = some (loopDelay c6RespState.mode) := by
  refine ⟨⟨rfl, rfl, rfl, rfl⟩, by decide, by decide, by decide, by decide,
    by decide⟩

/-- Claim C7: while the continuous loop is enabled, the Capture and Analyze
button is disabled (`disabled={isLoading || isAutoAnalyze}`, line 542), so
the manual capture trigger is rejected: the click changes nothing at all: no
frame is captured and no request is issued. -/
theorem c7_manual_capture_rejected (s : VisionState)
    (blob : Option EncodedBlob) (h : s.isAutoAnalyze = true) :
    captureButtonDisabled s = true ∧
    step s (Event.manualCapture blob) = s := by
  refine ⟨by simp [captureButtonDisabled, h], ?_⟩
  simp only [step]
  split
  · rename_i hg
    simp [captureButtonDisabled, h] at hg
  · rfl

/-- Claim C7 witness at a concrete streaming state with the loop enabled. -/
theorem c7_witness :
    captureButtonDisabled c1State = true ∧
    step c1State (Event.manualCapture (some blob0)) = c1State :=
  c7_manual_capture_rejected c1State (some blob0) (by decide)

/-- Claim C8: a failing analysis response whose request captured the
auto-analyze flag surfaces no error and leaves the displayed result
untouched, while a failing response of a single-shot request (issued with the
loop off) sets the error banner; loop-issued requests always capture the flag
as true and manual single-shot requests as false. -/
theorem c8_error_surfacing_asymmetry :
    (∀ (s : VisionState) (p : PendingRequest) (rest : List PendingRequest),
      s.inFlight = p :: rest → p.capturedAuto = true →
      (step s (Event.response (Except.error ()))).error = s.error ∧
      (step s (Event.response (Except.error ()))).result = s.result) ∧
    (∀ (s : VisionState) (p : PendingRequest) (rest : List PendingRequest),
      s.inFlight = p :: rest → p.capturedAuto = false →
      (step s (Event.response (Except.error ()))).error
        = some "Failed to process image.") ∧
    (∀ (s : VisionState) (b : EncodedBlob),
      s.isAutoAnalyze = true → s.isStreaming = true → s.isLoading = false →
      isVisionMode s.mode = true →
      (tick s (some b)).inFlight = s.inFlight ++
        [{ capturedAuto := true, mode := s.mode, fromLoop := true,
           gen := s.gen }]) ∧
    (∀ (s : VisionState) (b : EncodedBlob),
      (s.source == InputSource.camera) = true → s.isStreaming = true →
      s.isLoading = false → s.isAutoAnalyze = false →
      isVisionMode s.mode = true →
      (step s (Event.manualCapture (some b))).inFlight = s.inFlight ++
        [{ capturedAuto := false, mode := s.mode, fromLoop := false,
           gen := s.gen }]) := by
  refine ⟨?_, ?_, ?_, ?_⟩
  · intro s p rest hf hca
    have h0 := respond_head s p rest hf (Except.error ())
    simp only [step, h0, processImageFinish]
    constructor <;> simp [hca]
  · intro s p rest hf hca
    have h0 := respond_head s p rest hf (Except.error ())
    simp only [step, h0, processImageFinish]
    simp [hca]
  · intro s b ha hs hl hv
    simp [tick, ha, hs, hl, hv, processImageStart]
  · intro s b hsrc hs hl hauto hv
    simp [step, hsrc, hs, hl, hauto, captureButtonDisabled,
      handleManualCapture, processImageStart, hv]

/-- Claim C8 witness: the absorbed loop failure at `c2State` and the
single-shot issuance with the flag captured false at `camState`. -/
theorem c8_witness :
    (step c2State (Event.response (Except.error ()))).error = c2State.error ∧
    (step camState (Event.manualCapture (some blob0))).inFlight =
      camState.inFlight ++
        [{ capturedAuto := false, mode := camState.mode, fromLoop := false,
           gen := camState.gen }] := by
  refine ⟨(c8_error_surfacing_asymmetry.1 c2State
      { capturedAuto := true, mode := AppMode.CLASSIFICATION,
        fromLoop := true, gen := 1 } [] (by decide) (by decide)).1,
    c8_error_surfacing_asymmetry.2.2.2 camState blob0 (by decide) (by decide)
      (by decide) (by decide) (by decide)⟩

/-- Claim C9: given an active capture session whose video surface has
non-zero dimensions (and mounted video and canvas elements with a working 2d
context), `captureFrame` returns a JPEG blob encoded at quality 0.8 (recorded
as 80 percent); when the session is inactive or the surface has zero
dimensions, it returns no frame. -/
theorem c9_captureFrame_contract (e : CaptureEnv) :
    (e.streaming = true → e.videoPresent = true → e.canvasPresent = true →
      e.ctxOk = true → 0 < e.streamWidth → 0 < e.streamHeight →
      captureFrame e = some { mimeType := "image/jpeg", qualityPct := 80 }) ∧
    (e.streaming = false → captureFrame e = none) ∧
    (videoWidth e = 0 → captureFrame e = none) ∧
    (videoHeight e = 0 → captureFrame e = none) := by
  refine ⟨?_, ?_, ?_, ?_⟩
  · intro h1 h2 h3 h4 h5 h6
    have hw : videoWidth e = e.streamWidth := by simp [videoWidth, h1]
    have hh : videoHeight e = e.streamHeight := by simp [videoHeight, h1]
    simp [captureFrame, h2, h3, h4, canvasToBlob, hw, hh]
    omega
  · intro h1
    unfold captureFrame
    split
    · rfl
    · split
      · rfl
      · simp [canvasToBlob, videoWidth, h1]
  · intro h1
    unfold captureFrame
    split
    · rfl
    · split
      · rfl
      · simp [canvasToBlob, h1]
  · intro h1
    unfold captureFrame
    split
    · rfl
    · split
      · rfl
      · simp [canvasToBlob, h1]

/-- Claim C9 witness at a ready 1280x720 environment and at an inactive
session. -/
theorem c9_witness :
    captureFrame envActive
      = some { mimeType := "image/jpeg", qualityPct := 80 } ∧
    captureFrame envInactive = none := by
  exact ⟨(c9_captureFrame_contract envActive).1 rfl rfl rfl rfl
      (by decide) (by decide),
    (c9_captureFrame_contract envInactive).2.1 rfl⟩

/-- Claim C10: the TTS trigger is a no-op (state and request untouched) when
the input text trims to empty; on non-whitespace input it clears the previous
audio URL and error, sets the loading flag, and issues the synthesis request
with the input text and the selected voice. -/
theorem c10_tts_trigger (s : SpeechState) :
    ((jsTrim s.textInput == "") = true → handleTTS s = (s, none)) ∧
    ((jsTrim s.textInput == "") = false →
      (handleTTS s).1.audioUrl = none ∧
      (handleTTS s).1.error = none ∧
      (handleTTS s).1.isLoading = true ∧
      (handleTTS s).2
        = some { text := s.textInput, voice := s.selectedVoice }) := by
  constructor
  · intro h
    simp [handleTTS, h]
  · intro h
    refine ⟨?_, ?_, ?_, ?_⟩ <;> simp [handleTTS, h]

/-- Claim C10 witness at an ASCII whitespace-only input, at a
non-ASCII whitespace-only input (no-break space, form feed) and at a real
input. -/
theorem c10_witness :
    handleTTS sWs = (sWs, none) ∧
    handleTTS sNbsp = (sNbsp, none) ∧
    (handleTTS sTxt).1.audioUrl = none ∧
    (handleTTS sTxt).2 = some { text := "Hello there", voice := "Kore" } := by
  exact ⟨(c10_tts_trigger sWs).1 (by decide),
    (c10_tts_trigger sNbsp).1 (by decide),
    ((c10_tts_trigger sTxt).2 (by decide)).1,
    ((c10_tts_trigger sTxt).2 (by decide)).2.2.2⟩

end MLProj
